import Mathlib

/-!
Verification development for the flavors module of a remote-object protocol
(`twisted/spread/flavors.py`): the classification of objects into transmission
styles (reference / view / copy / cache) and the per-connection cache tables
implementing distributed reference counting for cacheable objects.

Modelling conventions:
* Python object identity (`id(x)`) is modelled by natural-number object ids;
  objects whose only relevant property is their identity are represented by
  their id directly.  The Python value `None` is itself an object, represented
  by the distinguished id `noneId`.
* The connection handle ("broker", from `pb.py`, which is not part of the
  sources) is modelled from the spec as a record of cache tables; its
  operations carry doc comments saying so.
* The external tree serializer ("jelly") is out of scope per the spec; its
  `recurse` operation is modelled as an injective wrapper and
  `getInstanceState` as a plain instance-state wire form.
* Attribute dictionaries of flavor instances are opaque tokens (`Attrs`);
  the dictionaries of `RemoteCache` proxies, whose sharing structure matters,
  are modelled explicitly in a small heap (`PyHeap`) of objects and dicts.
-/

/-- Object identities (Python `id`). -/
abbrev ObjId := Nat

/-- The identity of the Python value `None`. -/
def noneId : ObjId := 0

/-- Opaque token standing for an attribute dictionary's contents. -/
abbrev Attrs := Nat

/-- Key space for identity-keyed broker tables: `Serializable.processUniqueID`
returns `id(self)` (a single id), while `ViewPoint.processUniqueID` returns the
pair `(id(self.perspective), id(self.object))`. -/
inductive PUID where
  | single : ObjId → PUID
  | pair : ObjId → ObjId → PUID
deriving DecidableEq

/-- Result of passing a value through the external serializer
(`jellier.jelly` / the spec's `recurse`); opaque wrapper. -/
structure Jellied where
  payload : Attrs
deriving DecidableEq

/-- Modelled from the spec: the external serializer's `recurse(value)`
operation embedding nested serializable state into wire form. -/
def jellyRecurse (s : Attrs) : Jellied := ⟨s⟩

/-- Errors surfaced by the cache subsystem (spec section 7 taxonomy, plus a
model-internal `lookupFailed` for heap accesses that cannot occur under the
well-formedness hypotheses of the theorems below). -/
inductive PbError where
  | unknownLocalId
  | duplicateCacheState
  | brokerAssertionFailed
  | lookupFailed
deriving DecidableEq

/-- First-match association-list lookup (Python dict reads on a model where
updates prepend). -/
def alookup {α β : Type} [DecidableEq α] : List (α × β) → α → Option β
  | [], _ => none
  | (k, v) :: rest, x => if x = k then some v else alookup rest x

/-- Attribute dictionary of a `RemoteCache` proxy: the `broker` and `luid`
instance attributes (class defaults `None`) plus the copied state. -/
structure CDict where
  broker : Option Nat
  luid : Option Nat
  state : Option Attrs
deriving DecidableEq

/-- A heap object: its class (a name) and a reference to its `__dict__`. -/
structure PObj where
  cls : String
  dict : Nat
deriving DecidableEq

/-- Heap of proxy objects and their dictionaries; fresh ids are allocated
monotonically and updates prepend (first match wins on lookup). -/
structure PyHeap where
  objs : List (Nat × PObj)
  dicts : List (Nat × CDict)
  nextObj : Nat
  nextDict : Nat
deriving DecidableEq

def PyHeap.getObj (h : PyHeap) (i : Nat) : Option PObj := alookup h.objs i

def PyHeap.getDict (h : PyHeap) (i : Nat) : Option CDict := alookup h.dicts i

def PyHeap.setObj (h : PyHeap) (i : Nat) (o : PObj) : PyHeap :=
  { h with objs := (i, o) :: h.objs }

def PyHeap.setDict (h : PyHeap) (i : Nat) (d : CDict) : PyHeap :=
  { h with dicts := (i, d) :: h.dicts }

def PyHeap.allocObj (h : PyHeap) (o : PObj) : Nat × PyHeap :=
  (h.nextObj, { h with objs := (h.nextObj, o) :: h.objs, nextObj := h.nextObj + 1 })

def PyHeap.allocDict (h : PyHeap) (d : CDict) : Nat × PyHeap :=
  (h.nextDict, { h with dicts := (h.nextDict, d) :: h.dicts, nextDict := h.nextDict + 1 })

/-- Modelled from the spec: the connection handle (`pb.Broker`, not among the
sources).  Section 3/4.3 of the spec: an outgoing identity-keyed cache
object-identity to LUID with a monotone LUID allocator, an incoming cache
LUID to local proxy, and a separate reference-id table for `Referenceable`
registration (a different id space than the LUID space). -/
structure Broker where
  id : Nat
  serializingPerspective : ObjId
  outgoing : List (PUID × Nat)
  nextLuid : Nat
  incoming : List (Nat × Nat)
  refTable : List (PUID × Nat)
  nextRefId : Nat
deriving DecidableEq

/-- Modelled from the spec: `lookupOutgoing` — query the outgoing cache for an
object's identity, returning its LUID when present (`Broker.cachedRemotelyAs`
in the missing `pb.py`). -/
def Broker.cachedRemotelyAs (b : Broker) (puid : PUID) : Option Nat :=
  alookup b.outgoing puid

/-- Modelled from the spec: `registerOutgoing` — allocate a fresh monotone
LUID for an object's identity and record it in the outgoing cache
(`Broker.cacheRemotely` in the missing `pb.py`). -/
def Broker.cacheRemotely (b : Broker) (puid : PUID) : Nat × Broker :=
  (b.nextLuid,
   { b with outgoing := (puid, b.nextLuid) :: b.outgoing, nextLuid := b.nextLuid + 1 })

/-- Modelled from the spec: `registerIncoming(LUID, proxy)` — fails with
`DuplicateCacheState` if the LUID is already present, leaving the table
untouched; otherwise records the proxy (`Broker.cacheLocally` in the missing
`pb.py`). -/
def Broker.cacheLocally (b : Broker) (luid : Nat) (obj : Nat) : Except PbError Broker :=
  match alookup b.incoming luid with
  | some _ => .error .duplicateCacheState
  | none => .ok { b with incoming := (luid, obj) :: b.incoming }

/-- Modelled from the spec: incoming-cache lookup that fails with
`UnknownLocalId` when the LUID was never registered (`Broker.cachedLocallyAs`
in the missing `pb.py`, per spec section 4.2). -/
def Broker.cachedLocallyAs (b : Broker) (luid : Nat) : Except PbError Nat :=
  match alookup b.incoming luid with
  | some o => .ok o
  | none => .error .unknownLocalId

/-- Modelled from the spec: `registerReference(object) -> RefId`, keyed by the
object's `processUniqueID` so identity-equivalent objects reuse one reference
id; a different id space than the LUID space. -/
def Broker.registerReference (b : Broker) (puid : PUID) : Nat × Broker :=
  match alookup b.refTable puid with
  | some r => (r, b)
  | none =>
    (b.nextRefId,
     { b with refTable := (puid, b.nextRefId) :: b.refTable, nextRefId := b.nextRefId + 1 })

/-- Wire forms produced by the flavor serializers: plain instance state (no
invoker), the copy form `(typeTag, state)`, the full-cache form
`(typeTag, LUID, state)`, the cached-reference form `("cached", LUID)`, the
reverse cache reference `("lcache", LUID)`, and the direct reference form
`("remote", refId)`. -/
inductive WireForm where
  | instanceState : Attrs → WireForm
  | instanceStateDict : CDict → WireForm
  | copyForm : String → Jellied → WireForm
  | cacheForm : String → Nat → Jellied → WireForm
  | cachedForm : Nat → WireForm
  | lcacheForm : Option Nat → WireForm
  | remoteForm : Nat → WireForm
deriving DecidableEq

/-- A `Copyable` instance: its identity, its `getTypeToCopy` result (default
`str(self.__class__)`) and its `__dict__`. -/
structure CopyableObj where
  puid : ObjId
  typeToCopy : String
  stateDict : Attrs
deriving DecidableEq

/-- A `Cacheable` instance (same shape; `Cacheable` extends `Copyable`). -/
structure CacheableObj where
  puid : ObjId
  typeToCopy : String
  stateDict : Attrs
deriving DecidableEq

/-- `Serializable.processUniqueID`: by default the `id` builtin. -/
def CacheableObj.processUniqueID (o : CacheableObj) : PUID := .single o.puid

/-- `Copyable.getTypeToCopyFor`: defers to `getTypeToCopy`, which defaults to
the class name string. -/
def CacheableObj.getTypeToCopyFor (o : CacheableObj) (_p : ObjId) : String := o.typeToCopy

/-- `Copyable.getStateToCopyFor`: defers to `getStateToCopy`, which defaults
to `self.__dict__`. -/
def CacheableObj.getStateToCopyFor (o : CacheableObj) (_p : ObjId) : Attrs := o.stateDict

/-- `RemoteCacheObserver(broker, cached, perspective)`: a reverse-reference
triple constructed when a cacheable is first serialized. -/
structure RemoteCacheObserverM where
  broker : Nat
  cached : ObjId
  perspective : ObjId
deriving DecidableEq

/-- `Cacheable.getStateToCacheAndObserveFor`: default implementation ignores
the observer and defers to `getStateToCopyFor`. -/
def CacheableObj.getStateToCacheAndObserveFor (o : CacheableObj) (p : ObjId)
    (_obs : RemoteCacheObserverM) : Attrs :=
  o.getStateToCopyFor p

/-- `Copyable.jellyFor`: with no invoker, emit plain instance state; otherwise
emit `(getTypeToCopyFor(p), jelly(getStateToCopyFor(p)))`. -/
def copyableJellyFor (o : CopyableObj) (invoker : Option Broker) :
    WireForm × Option Broker :=
  match invoker with
  | none => (WireForm.instanceState o.stateDict, none)
  | some br => (WireForm.copyForm o.typeToCopy (jellyRecurse o.stateDict), some br)

/-- `Cacheable.jellyFor`: with no invoker, plain instance state.  Otherwise
consult `cachedRemotelyAs`; if a LUID is known, emit `("cached", luid)`;
otherwise allocate a LUID via `cacheRemotely`, build the observer, obtain the
state via `getStateToCacheAndObserveFor`, and emit the full-cache form
`(typeTag, luid, jelly(state))`. -/
def cacheableJellyFor (o : CacheableObj) (invoker : Option Broker) :
    WireForm × Option Broker :=
  match invoker with
  | none => (WireForm.instanceState o.stateDict, none)
  | some br =>
    match br.cachedRemotelyAs o.processUniqueID with
    | some luid => (WireForm.cachedForm luid, some br)
    | none =>
      let alloc := br.cacheRemotely o.processUniqueID
      let luid := alloc.1
      let br1 := alloc.2
      let p := br1.serializingPerspective
      let ty := o.getTypeToCopyFor p
      let obs : RemoteCacheObserverM := { broker := br1.id, cached := o.puid, perspective := p }
      let st := o.getStateToCacheAndObserveFor p obs
      (WireForm.cacheForm ty luid (jellyRecurse st), some br1)

/-- Wire forms of `n` successive serializations of one `Cacheable` over one
live connection, threading the broker state. -/
def cacheableSerializeSteps (o : CacheableObj) : Nat → Broker → List WireForm × Broker
  | 0, br => ([], br)
  | Nat.succ n, br =>
    let step := cacheableJellyFor o (some br)
    let br1 := step.2.getD br
    let rest := cacheableSerializeSteps o n br1
    (step.1 :: rest.1, rest.2)

/-- A `ViewPoint` wraps a perspective and a target object; only their
identities matter here. -/
structure ViewPointObj where
  perspective : ObjId
  object : ObjId
deriving DecidableEq

/-- `ViewPoint.processUniqueID`: the pair
`(id(self.perspective), id(self.object))`. -/
def ViewPointObj.processUniqueID (vp : ViewPointObj) : PUID :=
  .pair vp.perspective vp.object

/-- `Referenceable.jellyFor`: `("remote", invoker.registerReference(self))`,
with registration keyed by the object's `processUniqueID`. -/
def referenceableJellyForKey (key : PUID) (br : Broker) : WireForm × Broker :=
  let r := br.registerReference key
  (WireForm.remoteForm r.1, r.2)

/-- `ViewPoint.jellyFor` (inherited from `Referenceable`): register under the
ViewPoint's identity pair and emit the remote form. -/
def viewPointJellyFor (vp : ViewPointObj) (br : Broker) : WireForm × Broker :=
  referenceableJellyForKey vp.processUniqueID br

/-- A `Viewable` instance; only its identity matters. -/
structure ViewableObj where
  puid : ObjId
deriving DecidableEq

/-- `Viewable.jellyFor`:
`ViewPoint(jellier.invoker.serializingPerspective, self).jellyFor(jellier)` —
unconditionally wraps the current perspective (which may be `None`). -/
def viewableJellyFor (v : ViewableObj) (br : Broker) : WireForm × Broker :=
  viewPointJellyFor { perspective := br.serializingPerspective, object := v.puid } br

deriving instance DecidableEq for Except

/-- Outcome of `RemoteCache.unjellyFor`: the returned proxy id (or the raised
error) together with the broker and heap after the call — heap mutations made
before an exception persist, as in Python. -/
structure UnjellyOutcome where
  result : Except PbError Nat
  broker : Broker
  heap : PyHeap
deriving DecidableEq

/-- First half of `RemoteCache.unjellyFor`, up to and including the
incoming-cache registration: set `self.broker`/`self.luid`, build the `_Dummy`
proxy `cProxy` sharing `self`'s class and `__dict__` (`RemoteCache` defines no
`__init__`, so the optional `init()` call is a no-op), then
`invoker.cacheLocally(luid, self)`.  On success the result is the freshly
allocated `cProxy` id. -/
def remoteCacheUnjellyPhase1 (br : Broker) (h : PyHeap) (selfId luid : Nat) :
    UnjellyOutcome :=
  match alookup h.objs selfId with
  | none => { result := .error .lookupFailed, broker := br, heap := h }
  | some selfObj =>
    match alookup h.dicts selfObj.dict with
    | none => { result := .error .lookupFailed, broker := br, heap := h }
    | some d0 =>
      let h1 := h.setDict selfObj.dict { d0 with broker := some br.id, luid := some luid }
      let a := h1.allocObj { cls := selfObj.cls, dict := selfObj.dict }
      match br.cacheLocally luid selfId with
      | .error e => { result := .error e, broker := br, heap := a.2 }
      | .ok br1 => { result := .ok a.1, broker := br1, heap := a.2 }

/-- Second half of `RemoteCache.unjellyFor`, the state application:
`cProxy.setCopyableState(unjellier.unjelly(jellyList[2]))` rebinds `cProxy`'s
`__dict__` to the freshly unjellied state dict, then `self.__dict__ =
cProxy.__dict__`, then `self.broker`/`self.luid` are set again (now into the
shared state dict).  The broker is never touched here. -/
def remoteCacheUnjellyPhase2 (br : Broker) (h : PyHeap) (selfId cid luid : Nat)
    (st : Attrs) : UnjellyOutcome :=
  let a := h.allocDict { broker := none, luid := none, state := some st }
  let sd := a.1
  let h3 := a.2
  match alookup h3.objs cid with
  | none => { result := .error .lookupFailed, broker := br, heap := h3 }
  | some cObj =>
    let h4 := h3.setObj cid { cObj with dict := sd }
    match alookup h4.objs selfId with
    | none => { result := .error .lookupFailed, broker := br, heap := h4 }
    | some selfObj =>
      let h5 := h4.setObj selfId { selfObj with dict := sd }
      match alookup h5.dicts sd with
      | none => { result := .error .lookupFailed, broker := br, heap := h5 }
      | some dSt =>
        let h6 := h5.setDict sd { dSt with broker := some br.id, luid := some luid }
        { result := .ok cid, broker := br, heap := h6 }

/-- `RemoteCache.unjellyFor` with a live invoker, on the full-cache form
`(typeTag, luid, state)`: registration phase followed by state application;
an exception in the registration phase propagates. -/
def remoteCacheUnjellyFor (br : Broker) (h : PyHeap) (selfId luid : Nat)
    (st : Attrs) : UnjellyOutcome :=
  let o1 := remoteCacheUnjellyPhase1 br h selfId luid
  match o1.result with
  | .error _ => o1
  | .ok cid => remoteCacheUnjellyPhase2 o1.broker o1.heap selfId cid luid st

/-- Outcome of `unjellyCached`: returned proxy id or error, plus the heap
(the broker is never modified by `unjellyCached`). -/
structure UnjellyCachedOutcome where
  result : Except PbError Nat
  heap : PyHeap
deriving DecidableEq

/-- `unjellyCached` (registered for the `"cached"` tag): look up the LUID in
the incoming cache via `cachedLocallyAs`, then build a fresh `_Dummy` whose
class and `__dict__` are those of the registered proxy, and return it. -/
def unjellyCached (br : Broker) (h : PyHeap) (luid : Nat) : UnjellyCachedOutcome :=
  match br.cachedLocallyAs luid with
  | .error e => { result := .error e, heap := h }
  | .ok objId =>
    match alookup h.objs objId with
    | none => { result := .error .lookupFailed, heap := h }
    | some cNotProxy =>
      let a := h.allocObj { cls := cNotProxy.cls, dict := cNotProxy.dict }
      { result := .ok a.1, heap := a.2 }

/-- `RemoteCache.jellyFor`: with no invoker, plain instance state (the proxy's
`__dict__`); otherwise `assert jellier.invoker is self.broker` and emit
`("lcache", self.luid)`. -/
def remoteCacheJellyFor (invoker : Option Broker) (h : PyHeap) (selfId : Nat) :
    Except PbError WireForm :=
  match alookup h.objs selfId with
  | none => .error .lookupFailed
  | some o =>
    match alookup h.dicts o.dict with
    | none => .error .lookupFailed
    | some d =>
      match invoker with
      | none => .ok (WireForm.instanceStateDict d)
      | some br =>
        if d.broker = some br.id then .ok (WireForm.lcacheForm d.luid)
        else .error .brokerAssertionFailed

/-- Modelled from the spec: `remotelyCachedForLUID` resolves a received
`"lcache"` LUID back to the identity of the original outgoing object
(reverse lookup in the outgoing cache). -/
def Broker.remotelyCachedForLUID (b : Broker) (luid : Nat) : Option PUID :=
  (b.outgoing.find? (fun e => e.2 = luid)).map (fun e => e.1)

/-- `unjellyLCache` (registered for the `"lcache"` tag): return the original
object for the LUID. -/
def unjellyLCache (br : Broker) (luid : Nat) : Option PUID :=
  br.remotelyCachedForLUID luid

/-- Concrete example broker: empty caches, perspective object id 5. -/
def brokerEx : Broker :=
  { id := 3, serializingPerspective := 5, outgoing := [], nextLuid := 1,
    incoming := [], refTable := [], nextRefId := 0 }

/-- Example broker whose incoming cache already holds LUID 1 for object 0. -/
def brokerDup : Broker := { brokerEx with incoming := [(1, 0)] }

/-- Example broker with an absent (None) serializing perspective. -/
def brokerNoCtx : Broker := { brokerEx with id := 9, serializingPerspective := noneId }

/-- Example proxy object: class name with its `__dict__` at slot 0. -/
def objSelf : PObj := { cls := "RemoteA", dict := 0 }

/-- Example dict for `objSelf` (both special attributes unset). -/
def dict0 : CDict := { broker := none, luid := none, state := some 7 }

/-- Example heap holding just `objSelf` at id 0. -/
def heapEx : PyHeap :=
  { objs := [(0, objSelf)], dicts := [(0, dict0)], nextObj := 1, nextDict := 1 }

/-- Example cacheable object. -/
def cacheableEx : CacheableObj := { puid := 11, typeToCopy := "pkg.A", stateDict := 42 }

theorem cacheable_steps_all_cached (o : CacheableObj) (l : Nat) (n : Nat) (br : Broker)
    (hc : br.cachedRemotelyAs o.processUniqueID = some l) :
    cacheableSerializeSteps o n br = (List.replicate n (WireForm.cachedForm l), br) := by
  induction n with
  | zero => simp [cacheableSerializeSteps]
  | succ n ih =>
    simp [cacheableSerializeSteps, cacheableJellyFor, hc, ih, List.replicate]

/-- C1: serializing a `Cacheable` not yet in the connection's outgoing cache
first allocates the fresh LUID `br.nextLuid` (fresh: under the monotone-
allocation invariant it appears nowhere in the outgoing cache) and emits the
full-cache form `(typeTag, LUID, jellied state)`; every one of the `n`
subsequent serializations of the identically-same object over the same
connection emits the cached-reference form `("cached", LUID)` with that same
LUID and re-sends no state, leaving the broker unchanged after the first
registration. -/
theorem cacheable_first_full_then_cached_refs (o : CacheableObj) (br : Broker) (n : Nat)
    (hfresh : br.cachedRemotelyAs o.processUniqueID = none)
    (hbound : ∀ k l, (k, l) ∈ br.outgoing → l < br.nextLuid) :
    (∀ k, (k, br.nextLuid) ∉ br.outgoing) ∧
    cacheableSerializeSteps o (n + 1) br =
      (WireForm.cacheForm o.typeToCopy br.nextLuid (jellyRecurse o.stateDict)
         :: List.replicate n (WireForm.cachedForm br.nextLuid),
       { br with outgoing := (o.processUniqueID, br.nextLuid) :: br.outgoing,
                 nextLuid := br.nextLuid + 1 }) := by
  constructor
  · intro k hk
    exact absurd (hbound k br.nextLuid hk) (lt_irrefl _)
  · have hc : (({ br with outgoing := (o.processUniqueID, br.nextLuid) :: br.outgoing,
                          nextLuid := br.nextLuid + 1 } : Broker)).cachedRemotelyAs
          o.processUniqueID = some br.nextLuid := by
      simp [Broker.cachedRemotelyAs, alookup]
    simp [cacheableSerializeSteps, cacheableJellyFor, hfresh, Broker.cacheRemotely,
      CacheableObj.getTypeToCopyFor, CacheableObj.getStateToCacheAndObserveFor,
      CacheableObj.getStateToCopyFor,
      cacheable_steps_all_cached o br.nextLuid n _ hc]

/-- Witness for C1 at a concrete cacheable and a concrete empty-cache broker,
with three successive serializations. -/
theorem cacheable_first_full_then_cached_refs_witness :
    (brokerEx.cachedRemotelyAs cacheableEx.processUniqueID = none) ∧
    (∀ k l, (k, l) ∈ brokerEx.outgoing → l < brokerEx.nextLuid) ∧
    ((∀ k, (k, brokerEx.nextLuid) ∉ brokerEx.outgoing) ∧
     cacheableSerializeSteps cacheableEx (2 + 1) brokerEx =
       (WireForm.cacheForm cacheableEx.typeToCopy brokerEx.nextLuid
            (jellyRecurse cacheableEx.stateDict)
          :: List.replicate 2 (WireForm.cachedForm brokerEx.nextLuid),
        { brokerEx with
            outgoing := (cacheableEx.processUniqueID, brokerEx.nextLuid) :: brokerEx.outgoing,
            nextLuid := brokerEx.nextLuid + 1 })) := by
  refine ⟨rfl, ?_, ?_⟩
  · intro k l hk
    simp [brokerEx] at hk
  · exact cacheable_first_full_then_cached_refs cacheableEx brokerEx 2 rfl
      (by intro k l hk; simp [brokerEx] at hk)

/-- C2: reconstructing a cached-reference form `("cached", L)` when the
incoming cache holds no entry for `L` fails with `UnknownLocalId`: no proxy is
returned, no other error is raised, and the heap is untouched. -/
theorem unjellyCached_unknown_luid (br : Broker) (h : PyHeap) (luid : Nat)
    (hnone : alookup br.incoming luid = none) :
    unjellyCached br h luid =
      { result := Except.error PbError.unknownLocalId, heap := h } := by
  simp [unjellyCached, Broker.cachedLocallyAs, hnone]

/-- Witness for C2: LUID 5 was never registered on the example broker. -/
theorem unjellyCached_unknown_luid_witness :
    alookup brokerEx.incoming 5 = none ∧
    unjellyCached brokerEx heapEx 5 =
      { result := Except.error PbError.unknownLocalId, heap := heapEx } :=
  ⟨rfl, unjellyCached_unknown_luid brokerEx heapEx 5 rfl⟩

/-- C5 counterexample: serializing a `Viewable` with the access context absent
(`serializingPerspective = noneId`) does not fail at all — there is no
`CannotViewWithoutContext` in the code — it succeeds, producing exactly the
remote-reference wire form of `ViewPoint(None, V)`. -/
theorem viewable_absent_context_serializes_cex :
    brokerNoCtx.serializingPerspective = noneId ∧
    viewableJellyFor { puid := 9 } brokerNoCtx =
      (WireForm.remoteForm 0,
       { brokerNoCtx with refTable := [(PUID.pair noneId 9, 0)], nextRefId := 1 }) ∧
    viewableJellyFor { puid := 9 } brokerNoCtx =
      viewPointJellyFor { perspective := noneId, object := 9 } brokerNoCtx := by
  exact ⟨rfl, by decide, rfl⟩

/-- C5 amended: serializing a `Viewable` always produces exactly the wire form
of `ViewPoint(currentAccessContext, V)` under the same context — also when the
access context is absent, in which case the ViewPoint is built over `None` and
serialization still succeeds as a remote reference (no
`CannotViewWithoutContext` failure exists in the code). -/
theorem viewable_delegates_to_viewpoint (v : ViewableObj) (br : Broker) :
    viewableJellyFor v br =
      viewPointJellyFor { perspective := br.serializingPerspective, object := v.puid } br ∧
    viewableJellyFor v br =
      (WireForm.remoteForm (br.registerReference (PUID.pair br.serializingPerspective v.puid)).1,
       (br.registerReference (PUID.pair br.serializingPerspective v.puid)).2) :=
  ⟨rfl, rfl⟩

/-- C6: two ViewPoints have the same caching/equality identity key
(`processUniqueID`) precisely when their access contexts are the
identically-same object and their targets are the identically-same object. -/
theorem viewpoint_identity_is_perspective_object_pair (w1 w2 : ViewPointObj) :
    w1.processUniqueID = w2.processUniqueID ↔
      (w1.perspective = w2.perspective ∧ w1.object = w2.object) := by
  simp [ViewPointObj.processUniqueID]

/-- C3: receiving a second full-cache form for a LUID already registered in
the incoming cache fails with `DuplicateCacheState`, and the broker — in
particular the existing incoming cache entry — is left exactly as it was. -/
theorem duplicate_full_cache_rejected (br : Broker) (h : PyHeap) (selfId luid : Nat)
    (st : Attrs) (q : Nat) (so : PObj) (d : CDict)
    (hso : alookup h.objs selfId = some so)
    (hd : alookup h.dicts so.dict = some d)
    (hdup : alookup br.incoming luid = some q) :
    (remoteCacheUnjellyFor br h selfId luid st).result =
      Except.error PbError.duplicateCacheState ∧
    (remoteCacheUnjellyFor br h selfId luid st).broker = br := by
  constructor <;>
    simp [remoteCacheUnjellyFor, remoteCacheUnjellyPhase1, hso, hd,
      Broker.cacheLocally, hdup, PyHeap.setDict, PyHeap.allocObj]

/-- Witness for C3: the example broker already holds LUID 1 (for object 0);
a second full-cache reception for LUID 1 is rejected without change. -/
theorem duplicate_full_cache_rejected_witness :
    alookup heapEx.objs 0 = some objSelf ∧
    alookup heapEx.dicts objSelf.dict = some dict0 ∧
    alookup brokerDup.incoming 1 = some 0 ∧
    ((remoteCacheUnjellyFor brokerDup heapEx 0 1 99).result =
       Except.error PbError.duplicateCacheState ∧
     (remoteCacheUnjellyFor brokerDup heapEx 0 1 99).broker = brokerDup) :=
  ⟨by decide, by decide, by decide,
   duplicate_full_cache_rejected brokerDup heapEx 0 1 99 0 objSelf dict0
     (by decide) (by decide) (by decide)⟩

/-- C4 counterexample: run a full-cache reception of LUID 1 on the example
broker and heap — it registers object 0 (the unjellied instance) in the
incoming cache and returns the proxy object 1; reconstructing the
cached-reference form for LUID 1 afterwards then returns object 2, a freshly
allocated object, not the registered instance 0 nor the previously returned
proxy 1 — so the claim that the very same instance is returned is false. -/
theorem unjellyCached_not_same_instance_cex :
    (remoteCacheUnjellyFor brokerEx heapEx 0 1 42).result = Except.ok 1 ∧
    alookup (remoteCacheUnjellyFor brokerEx heapEx 0 1 42).broker.incoming 1 = some 0 ∧
    (unjellyCached (remoteCacheUnjellyFor brokerEx heapEx 0 1 42).broker
        (remoteCacheUnjellyFor brokerEx heapEx 0 1 42).heap 1).result = Except.ok 2 := by
  decide

/-- C4 amended: reconstructing a cached-reference form for a registered LUID
returns a freshly allocated proxy object — not the registered instance — whose
class and `__dict__` reference are exactly those of the registered proxy, so
the two are identity-equivalent under `RemoteCache`'s comparison and hash
(which key on the identity of the shared `__dict__`). -/
theorem unjellyCached_returns_fresh_equivalent (br : Broker) (h : PyHeap) (luid p : Nat)
    (po : PObj)
    (hreg : alookup br.incoming luid = some p)
    (hp : alookup h.objs p = some po)
    (hfresh : alookup h.objs h.nextObj = none) :
    (unjellyCached br h luid).result = Except.ok h.nextObj ∧
    h.nextObj ≠ p ∧
    alookup (unjellyCached br h luid).heap.objs h.nextObj =
      some { cls := po.cls, dict := po.dict } := by
  have hne : h.nextObj ≠ p := by
    intro e
    rw [e] at hfresh
    rw [hfresh] at hp
    exact Option.noConfusion hp
  refine ⟨?_, hne, ?_⟩
  · simp [unjellyCached, Broker.cachedLocallyAs, hreg, hp, PyHeap.allocObj]
  · simp [unjellyCached, Broker.cachedLocallyAs, hreg, hp, PyHeap.allocObj, alookup]

/-- Witness for C4's amended theorem at the concrete registered LUID 1. -/
theorem unjellyCached_returns_fresh_equivalent_witness :
    alookup brokerDup.incoming 1 = some 0 ∧
    alookup heapEx.objs 0 = some objSelf ∧
    alookup heapEx.objs heapEx.nextObj = none ∧
    ((unjellyCached brokerDup heapEx 1).result = Except.ok heapEx.nextObj ∧
     heapEx.nextObj ≠ 0 ∧
     alookup (unjellyCached brokerDup heapEx 1).heap.objs heapEx.nextObj =
       some { cls := objSelf.cls, dict := objSelf.dict }) :=
  ⟨by decide, by decide, by decide,
   unjellyCached_returns_fresh_equivalent brokerDup heapEx 1 0 objSelf
     (by decide) (by decide) (by decide)⟩

theorem remoteCacheUnjellyPhase2_broker_unchanged (b : Broker) (h : PyHeap)
    (selfId cid luid : Nat) (st : Attrs) :
    (remoteCacheUnjellyPhase2 b h selfId cid luid st).broker = b := by
  simp only [remoteCacheUnjellyPhase2]
  split
  · rfl
  · split
    · rfl
    · split
      · rfl
      · rfl

/-- C7: on a non-duplicate full-cache reception, the registration phase of
`RemoteCache.unjellyFor` (everything up to and including `cacheLocally`)
already records the unjellied proxy in the incoming cache under the LUID, the
state-application phase never modifies the broker (so a reentrant lookup of
the LUID at any point during state application finds the registered proxy),
and the whole reconstruction is exactly the registration phase followed by the
state-application phase. -/
theorem register_precedes_state_application (br : Broker) (h : PyHeap) (selfId luid : Nat)
    (st : Attrs) (so : PObj) (d : CDict)
    (hso : alookup h.objs selfId = some so)
    (hd : alookup h.dicts so.dict = some d)
    (hnew : alookup br.incoming luid = none) :
    (remoteCacheUnjellyPhase1 br h selfId luid).result = Except.ok h.nextObj ∧
    alookup (remoteCacheUnjellyPhase1 br h selfId luid).broker.incoming luid = some selfId ∧
    (∀ b2 h2 cid, (remoteCacheUnjellyPhase2 b2 h2 selfId cid luid st).broker = b2) ∧
    remoteCacheUnjellyFor br h selfId luid st =
      remoteCacheUnjellyPhase2 (remoteCacheUnjellyPhase1 br h selfId luid).broker
        (remoteCacheUnjellyPhase1 br h selfId luid).heap selfId h.nextObj luid st := by
  have h1 : (remoteCacheUnjellyPhase1 br h selfId luid).result = Except.ok h.nextObj := by
    simp [remoteCacheUnjellyPhase1, hso, hd, Broker.cacheLocally, hnew,
      PyHeap.setDict, PyHeap.allocObj]
  refine ⟨h1, ?_, fun b2 h2 cid => remoteCacheUnjellyPhase2_broker_unchanged b2 h2 selfId cid luid st, ?_⟩
  · simp [remoteCacheUnjellyPhase1, hso, hd, Broker.cacheLocally, hnew,
      PyHeap.setDict, PyHeap.allocObj, alookup]
  · simp only [remoteCacheUnjellyFor, h1]

/-- Witness for C7 at a concrete non-duplicate reception. -/
theorem register_precedes_state_application_witness :
    alookup heapEx.objs 0 = some objSelf ∧
    alookup heapEx.dicts objSelf.dict = some dict0 ∧
    alookup brokerEx.incoming 1 = none ∧
    ((remoteCacheUnjellyPhase1 brokerEx heapEx 0 1).result = Except.ok heapEx.nextObj ∧
     alookup (remoteCacheUnjellyPhase1 brokerEx heapEx 0 1).broker.incoming 1 = some 0 ∧
     (∀ b2 h2 cid, (remoteCacheUnjellyPhase2 b2 h2 0 cid 1 42).broker = b2) ∧
     remoteCacheUnjellyFor brokerEx heapEx 0 1 42 =
       remoteCacheUnjellyPhase2 (remoteCacheUnjellyPhase1 brokerEx heapEx 0 1).broker
         (remoteCacheUnjellyPhase1 brokerEx heapEx 0 1).heap 0 heapEx.nextObj 1 42) :=
  ⟨by decide, by decide, by decide,
   register_precedes_state_application brokerEx heapEx 0 1 42 objSelf dict0
     (by decide) (by decide) (by decide)⟩

/-- C9: after a (non-duplicate) full-cache reception, re-serializing the
returned proxy under the same connection passes the broker assertion and emits
exactly the reference form `("lcache", LUID)` carrying the proxy's LUID —
never the full-cache form, so no state is re-transmitted. -/
theorem full_reception_reserializes_as_lcache (br : Broker) (h : PyHeap)
    (selfId luid : Nat) (st : Attrs) (so : PObj) (d : CDict)
    (hso : alookup h.objs selfId = some so)
    (hd : alookup h.dicts so.dict = some d)
    (hnew : alookup br.incoming luid = none)
    (hfresh : alookup h.objs h.nextObj = none) :
    (remoteCacheUnjellyFor br h selfId luid st).result = Except.ok h.nextObj ∧
    remoteCacheJellyFor (some (remoteCacheUnjellyFor br h selfId luid st).broker)
        (remoteCacheUnjellyFor br h selfId luid st).heap h.nextObj
      = Except.ok (WireForm.lcacheForm (some luid)) := by
  have hne : selfId ≠ h.nextObj := by
    intro e
    rw [e, hfresh] at hso
    exact Option.noConfusion hso
  have hne2 : h.nextObj ≠ selfId := Ne.symm hne
  constructor <;>
    simp [remoteCacheUnjellyFor, remoteCacheUnjellyPhase1, remoteCacheUnjellyPhase2,
      remoteCacheJellyFor, Broker.cacheLocally, hso, hd, hnew, hne, hne2,
      PyHeap.allocObj, PyHeap.allocDict, PyHeap.setObj, PyHeap.setDict, alookup]

/-- Witness for C9 at a concrete non-duplicate reception of LUID 1. -/
theorem full_reception_reserializes_as_lcache_witness :
    alookup heapEx.objs 0 = some objSelf ∧
    alookup heapEx.dicts objSelf.dict = some dict0 ∧
    alookup brokerEx.incoming 1 = none ∧
    alookup heapEx.objs heapEx.nextObj = none ∧
    ((remoteCacheUnjellyFor brokerEx heapEx 0 1 42).result = Except.ok heapEx.nextObj ∧
     remoteCacheJellyFor (some (remoteCacheUnjellyFor brokerEx heapEx 0 1 42).broker)
         (remoteCacheUnjellyFor brokerEx heapEx 0 1 42).heap heapEx.nextObj
       = Except.ok (WireForm.lcacheForm (some 1))) :=
  ⟨by decide, by decide, by decide, by decide,
   full_reception_reserializes_as_lcache brokerEx heapEx 0 1 42 objSelf dict0
     (by decide) (by decide) (by decide) (by decide)⟩

/-- A concrete `Copyable` instance for the C10 witness. -/
def copyableEx : CopyableObj := { puid := 21, typeToCopy := "pkg.B", stateDict := 13 }

/-- C10: serializing a `Copyable`, a `Cacheable`, or a `RemoteCache` proxy
with no invoker present produces the plain instance-state wire form of the
object's `__dict__`: no broker is consulted or modified, no LUID is allocated
or emitted, and no copy, cache, cached-reference, or remote tag appears. -/
theorem no_invoker_emits_plain_instance_state (co : CopyableObj) (o : CacheableObj)
    (h : PyHeap) (i : Nat) (po : PObj) (d : CDict)
    (hpo : alookup h.objs i = some po)
    (hd : alookup h.dicts po.dict = some d) :
    copyableJellyFor co none = (WireForm.instanceState co.stateDict, none) ∧
    cacheableJellyFor o none = (WireForm.instanceState o.stateDict, none) ∧
    remoteCacheJellyFor none h i = Except.ok (WireForm.instanceStateDict d) := by
  refine ⟨rfl, rfl, ?_⟩
  simp [remoteCacheJellyFor, hpo, hd]

/-- Witness for C10 at concrete instances and the example heap. -/
theorem no_invoker_emits_plain_instance_state_witness :
    alookup heapEx.objs 0 = some objSelf ∧
    alookup heapEx.dicts objSelf.dict = some dict0 ∧
    (copyableJellyFor copyableEx none = (WireForm.instanceState copyableEx.stateDict, none) ∧
     cacheableJellyFor cacheableEx none = (WireForm.instanceState cacheableEx.stateDict, none) ∧
     remoteCacheJellyFor none heapEx 0 = Except.ok (WireForm.instanceStateDict dict0)) :=
  ⟨by decide, by decide,
   no_invoker_emits_plain_instance_state copyableEx cacheableEx heapEx 0 objSelf dict0
     (by decide) (by decide)⟩
